import Mathlib

/-!
Verification of the Elastic Job Registry client (`openeo_driver/jobregistry.py`)
against its specification.

The Python module builds HTTP request payloads (JSON documents) for a remote
job-registry service and post-processes the parsed JSON responses.  We embed
JSON documents as the inductive type `JVal`, a job record (`JobDict` in the
source) as an association list of string keys to `JVal`, and each registry
operation as a pure function from its arguments to the `EjrRequest` it issues
(method, path, JSON body, expected status).  Effectful inputs of the source
(the current time from `rfc3339.utcnow()`, the generated job id from
`generate_unique_id`, the timestamp normalizer `rfc3339.datetime`) are passed
in as explicit parameters.  Response post-processing (`get_job` after
`_search`, the status handling of `_do_request`) is embedded as pure functions
of the parsed response.
-/

/-- A JSON value, as produced by Python dict/list/str/int/bool/None literals
in `jobregistry.py`. -/
inductive JVal where
  | null
  | bool (b : Bool)
  | str (s : String)
  | int (n : Int)
  | arr (xs : List JVal)
  | obj (kvs : List (String × JVal))

/-- Python `==` between an arbitrary JSON value and a string: true exactly
when the value is that string (used for `job["job_id"] == job_id`). -/
def JVal.eqStr : JVal → String → Bool
  | .str a, b => a == b
  | _, _ => false

/-- Is this JSON value Python `None`? -/
def JVal.isNull : JVal → Bool
  | .null => true
  | _ => false

/-- Keys of a JSON object (empty for non-objects). -/
def JVal.objKeys : JVal → List String
  | .obj kvs => kvs.map Prod.fst
  | _ => []

/-- A job record: a string-keyed JSON document (`JobDict` in the source). -/
def JobDict := List (String × JVal)

/-- Field access `job.get(k)` / `job[k]` on a record. -/
def JobDict.get (j : JobDict) (k : String) : Option JVal :=
  List.lookup k j

/-- An `Optional[str]` argument rendered as a JSON value (`None` becomes
JSON null). -/
def optStr : Option String → JVal
  | some s => JVal.str s
  | none => JVal.null

/-- Python truthiness of an `Optional[str]`: `None` and `""` are falsy. -/
def truthyStr : Option String → Bool
  | some s => !(s == "")
  | none => false

/-- Exceptions raised by the module.  Structured constructors carry the data
the source interpolates into the exception message or attributes:
`JobNotFoundException(job_id=...)`, `InternalException(message=...)`,
`AssertionError`, `KeyError`, `EjrHttpError(msg, status_code)`, plain
`EjrError(msg)`, the credential-building `EjrError` (kept structured as
context plus the computed set of missing keys), and the error raised by
`requests`' `Response.raise_for_status`. -/
inductive RegistryError where
  | jobNotFound (job_id : String)
  | internalException (message : String)
  | assertionError (message : String)
  | keyError (key : String)
  | ejrHttpError (message : String) (status_code : Nat)
  | ejrError (message : String)
  | ejrConfigMissing (context : String) (missing : List String)
  | requestsHttpError (status_code : Nat)
deriving DecidableEq, Repr

/-- The HTTP request a registry operation issues through `_do_request`:
method, path, JSON body, and the `expected_status` argument
(default `200` in the source). -/
structure EjrRequest where
  method : String
  path : String
  body : JVal
  expected_status : Nat

namespace JOB_STATUS

/-- `JOB_STATUS.CREATED` -/
def CREATED : String := "created"

/-- `JOB_STATUS.QUEUED` -/
def QUEUED : String := "queued"

/-- `JOB_STATUS.RUNNING` -/
def RUNNING : String := "running"

/-- `JOB_STATUS.CANCELED` -/
def CANCELED : String := "canceled"

/-- `JOB_STATUS.FINISHED` -/
def FINISHED : String := "finished"

/-- `JOB_STATUS.ERROR` -/
def ERROR : String := "error"

end JOB_STATUS

namespace ElasticJobRegistry

/-- `if not job_id: job_id = self.generate_job_id()` — the effective job id of
`create_job`: the caller's id when truthy, else the freshly generated one. -/
def effectiveJobId (job_id : Option String) (generated_id : String) : String :=
  match job_id with
  | some j => if j == "" then generated_id else j
  | none => generated_id

/-- `ElasticJobRegistry.create_job`: builds the full initial record and
submits it as `POST /jobs` with `expected_status=201`.  `process` and
`job_options` are opaque JSON documents; `generated_id` stands for
`self.generate_job_id()` and `created` for `rfc3339.utcnow()`. -/
def create_job (backend_id : String) (process : JVal) (user_id : String)
    (job_id : Option String) (title : Option String)
    (description : Option String) (parent_id : Option String)
    (api_version : Option String) (job_options : Option JVal)
    (generated_id : String) (created : String) : EjrRequest :=
  let jid := effectiveJobId job_id generated_id
  let job_data : JVal := .obj [
    ("backend_id", .str backend_id),
    ("user_id", .str user_id),
    ("job_id", .str jid),
    ("process", process),
    ("title", optStr title),
    ("description", optStr description),
    ("status", .str JOB_STATUS.CREATED),
    ("created", .str created),
    ("updated", .str created),
    ("job_options", match job_options with | some jo => jo | none => .null),
    ("parent_id", optStr parent_id),
    ("application_id", .null),
    ("api_version", optStr api_version)]
  { method := "POST", path := "/jobs", body := job_data,
    expected_status := 201 }

/-- The five fields `_search` always adds to the `_source` projection. -/
def basicSearchFields : List String :=
  ["job_id", "user_id", "created", "status", "updated"]

/-- `fields = set(fields or []); fields.update([...])` — the `_source` field
set of `_search`.  Python's `set` is unordered; we embed it as a
duplicate-free list, so only membership in the result is meaningful. -/
def searchFields (fields : Option (List String)) : List String :=
  ((match fields with | some fs => fs | none => []) ++ basicSearchFields).dedup

/-- `ElasticJobRegistry._search`: wraps a filter query and the field
projection into a `POST /jobs/search` request (default `expected_status`,
i.e. 200). -/
def _search (query : JVal) (fields : Option (List String)) : EjrRequest :=
  { method := "POST", path := "/jobs/search",
    body := .obj [
      ("query", query),
      ("_source", .arr ((searchFields fields).map .str))],
    expected_status := 200 }

/-- The filter query `get_job` builds: exact terms on
`(backend_id, job_id)`. -/
def get_job_query (backend_id : String) (job_id : String) : JVal :=
  .obj [("bool", .obj [("filter", .arr [
    .obj [("term", .obj [("backend_id", .str backend_id)])],
    .obj [("term", .obj [("job_id", .str job_id)])]])])]

/-- The search request `get_job` issues: its query over
`fields or ["*"]` (full document by default). -/
def get_job_request (backend_id : String) (job_id : String)
    (fields : Option (List String)) : EjrRequest :=
  _search (get_job_query backend_id job_id)
    (some (match fields with
      | some fs => if fs.isEmpty then ["*"] else fs
      | none => ["*"]))

/-- `f"Found {len(jobs)} jobs for {job_id=}"` — the message of the
`InternalException` raised on multiple matches (the Python `repr` quoting of
the job id is kept abstract as plain text). -/
def multipleJobsMsg (job_id : String) (n : Nat) : String :=
  "Found " ++ toString n ++ " jobs for job_id=" ++ job_id

/-- Result handling of `ElasticJobRegistry.get_job` on the record list the
search returned: exactly one match is asserted to carry the requested
`job_id` and returned; zero matches raise `JobNotFoundException(job_id)`;
two or more raise `InternalException` (after logging a truncated summary).
The source branches on `len(jobs)` being `1`, `0` or anything else; the
match below has exactly those three exclusive cases. -/
def get_job_handle (job_id : String) (jobs : List JobDict) :
    Except RegistryError JobDict :=
  match jobs with
  | [] => .error (.jobNotFound job_id)
  | [job] =>
    match job.get "job_id" with
    | some v =>
      if v.eqStr job_id then .ok job
      else .error (.assertionError ("job job_id != " ++ job_id))
    | none => .error (.keyError "job_id")
  | _ :: _ :: _ => .error (.internalException (multipleJobsMsg job_id jobs.length))

/-- `ElasticJobRegistry._update`: the single partial-update primitive —
`PATCH /jobs/{job_id}` with the given JSON data and default
`expected_status` (200). -/
def _update (job_id : String) (data : JVal) : EjrRequest :=
  { method := "PATCH", path := "/jobs/" ++ job_id, body := data,
    expected_status := 200 }

/-- `ElasticJobRegistry.set_status`: partial update of `status` and
`updated` (the given value normalized by `rfc3339.datetime`, else
`rfc3339.utcnow()`), plus `started`/`finished` when supplied (truthy).
`rfc3339_datetime` stands for the external normalizer, `now` for
`rfc3339.utcnow()`. -/
def set_status (job_id : String) (status : String)
    (updated : Option String) (started : Option String)
    (finished : Option String)
    (rfc3339_datetime : String → String) (now : String) : EjrRequest :=
  let data : List (String × JVal) := [
    ("status", .str status),
    ("updated", .str (match updated with
      | some u => if u == "" then now else rfc3339_datetime u
      | none => now))]
  let data := if truthyStr started
    then data ++ [("started", .str (rfc3339_datetime (started.getD "")))]
    else data
  let data := if truthyStr finished
    then data ++ [("finished", .str (rfc3339_datetime (finished.getD "")))]
    else data
  _update job_id (.obj data)

/-- `ElasticJobRegistry.set_dependencies`: partial update of the single
field `dependencies`. -/
def set_dependencies (job_id : String) (dependencies : List JVal) :
    EjrRequest :=
  _update job_id (.obj [("dependencies", .arr dependencies)])

/-- `ElasticJobRegistry.remove_dependencies`: one partial update setting both
`dependencies` and `dependency_status` to JSON null. -/
def remove_dependencies (job_id : String) : EjrRequest :=
  _update job_id (.obj [("dependencies", .null), ("dependency_status", .null)])

/-- `ElasticJobRegistry.set_dependency_status`: single-field partial
update. -/
def set_dependency_status (job_id : String) (dependency_status : String) :
    EjrRequest :=
  _update job_id (.obj [("dependency_status", .str dependency_status)])

/-- `ElasticJobRegistry.set_proxy_user`: single-field partial update. -/
def set_proxy_user (job_id : String) (proxy_user : String) : EjrRequest :=
  _update job_id (.obj [("proxy_user", .str proxy_user)])

/-- `ElasticJobRegistry.set_application_id`: single-field partial update. -/
def set_application_id (job_id : String) (application_id : String) :
    EjrRequest :=
  _update job_id (.obj [("application_id", .str application_id)])

/-- The filter query `list_user_jobs` builds: exact terms on
`(backend_id, user_id)`. -/
def list_user_jobs_query (backend_id : String) (user_id : String) : JVal :=
  .obj [("bool", .obj [("filter", .arr [
    .obj [("term", .obj [("backend_id", .str backend_id)])],
    .obj [("term", .obj [("user_id", .str user_id)])]])])]

/-- `ElasticJobRegistry.list_user_jobs`: its query through `_search` with the
caller's field projection. -/
def list_user_jobs (backend_id : String) (user_id : String)
    (fields : Option (List String)) : EjrRequest :=
  _search (list_user_jobs_query backend_id user_id) fields

/-- `max_age or 7` — the effective age bound of `list_active_jobs`:
`7` when `max_age` is `None` or falsy (`0`). -/
def effectiveMaxAge (max_age : Option Int) : Int :=
  match max_age with
  | some n => if n == 0 then 7 else n
  | none => 7

/-- The filter query `list_active_jobs` builds: term on `backend_id`, terms
on active statuses, range on `created` since `now-{max_age or 7}d`. -/
def list_active_jobs_query (backend_id : String) (max_age : Option Int) :
    JVal :=
  .obj [("bool", .obj [("filter", .arr [
    .obj [("term", .obj [("backend_id", .str backend_id)])],
    .obj [("terms", .obj [("status", .arr [
      .str JOB_STATUS.CREATED, .str JOB_STATUS.QUEUED,
      .str JOB_STATUS.RUNNING])])],
    .obj [("range", .obj [("created", .obj [("gte",
      .str ("now-" ++ toString (effectiveMaxAge max_age) ++ "d"))])])]])])]

/-- `ElasticJobRegistry.list_active_jobs`: its query through `_search` with
the caller's field projection. -/
def list_active_jobs (backend_id : String) (max_age : Option Int)
    (fields : Option (List String)) : EjrRequest :=
  _search (list_active_jobs_query backend_id max_age) fields

end ElasticJobRegistry

/-- `ElasticJobRegistryCredentials`: the immutable credential triple. -/
structure ElasticJobRegistryCredentials where
  oidc_issuer : String
  client_id : String
  client_secret : String
deriving DecidableEq, Repr

namespace ElasticJobRegistryCredentials

/-- The three required keys of `from_mapping` (the Python `args` set,
embedded as a list). -/
def mappingArgs : List String := ["oidc_issuer", "client_id", "client_secret"]

/-- `ElasticJobRegistryCredentials.from_mapping`: reads the three required
keys from a string-keyed mapping (embedded as an association list).  On any
missing key it raises an `EjrError` naming the set of missing keys when
`strict`, and returns `None` otherwise. -/
def from_mapping (data : List (String × String)) (strict : Bool) :
    Except RegistryError (Option ElasticJobRegistryCredentials) :=
  match data.lookup "oidc_issuer", data.lookup "client_id",
      data.lookup "client_secret" with
  | some i, some c, some s =>
    .ok (some { oidc_issuer := i, client_id := c, client_secret := s })
  | _, _, _ =>
    if strict then
      .error (.ejrConfigMissing
        "Failed building ElasticJobRegistryCredentials from mapping: missing"
        (mappingArgs.filter (fun a => (data.lookup a).isNone)))
    else .ok none

/-- The environment variables `from_env` reads (values of the Python
`env_var_mapping`, in its order). -/
def envVars : List String :=
  ["OPENEO_EJR_OIDC_ISSUER", "OPENEO_EJR_OIDC_CLIENT_ID",
   "OPENEO_EJR_OIDC_CLIENT_SECRET"]

/-- `ElasticJobRegistryCredentials.from_env`: like `from_mapping` but over
the process environment (embedded as an association list; the
`env or os.environ` default is the caller's concern here), with the missing
set computed over the environment variable names. -/
def from_env (env : List (String × String)) (strict : Bool) :
    Except RegistryError (Option ElasticJobRegistryCredentials) :=
  match env.lookup "OPENEO_EJR_OIDC_ISSUER",
      env.lookup "OPENEO_EJR_OIDC_CLIENT_ID",
      env.lookup "OPENEO_EJR_OIDC_CLIENT_SECRET" with
  | some i, some c, some s =>
    .ok (some { oidc_issuer := i, client_id := c, client_secret := s })
  | _, _, _ =>
    if strict then
      .error (.ejrConfigMissing
        "Failed building ElasticJobRegistryCredentials from env: missing"
        (envVars.filter (fun e => (env.lookup e).isNone)))
    else .ok none

end ElasticJobRegistryCredentials

/-- The parts of a `requests.Response` that `_do_request` and
`EjrHttpError.from_response` inspect: status code, reason phrase, body text,
and the body as parsed by `response.json()`. -/
structure HttpResponse where
  status_code : Nat
  reason : String
  text : String
  body : JVal

/-- A single quote character, for the Python `repr` of a string. -/
def squote : String := String.singleton (Char.ofNat 39)

/-- Python `repr` of a string, for the simple quoting cases the module logs
(no escaping modelled). -/
def pyRepr (s : String) : String := squote ++ s ++ squote

/-- `EjrHttpError.from_response`: the exception message
`f"EJR API error: {status_code} {reason!r} on backtick-quoted
{method} {url!r}: {text}"` (backticks of the source format kept as plain
text is not possible here, so they are omitted from the embedded message). -/
def ejrHttpErrorMsg (method : String) (url : String) (resp : HttpResponse) :
    String :=
  "EJR API error: " ++ toString resp.status_code ++ " " ++
    pyRepr resp.reason ++ " on " ++ method ++ " " ++ pyRepr url ++
    ": " ++ resp.text

namespace ElasticJobRegistry

/-- Status handling at the end of `_do_request`: when `expected_status` is
truthy (non-zero) and the response status differs, raise
`EjrHttpError.from_response`; otherwise run `response.raise_for_status()`
(which, per the `requests` library, raises exactly for status codes in
[400, 600)); on no exception return the parsed body `response.json()`. -/
def handle_response (method : String) (url : String) (expected_status : Nat)
    (resp : HttpResponse) : Except RegistryError JVal :=
  if expected_status ≠ 0 ∧ resp.status_code ≠ expected_status then
    .error (.ejrHttpError (ejrHttpErrorMsg method url resp) resp.status_code)
  else if 400 ≤ resp.status_code ∧ resp.status_code < 600 then
    .error (.requestsHttpError resp.status_code)
  else .ok resp.body

end ElasticJobRegistry

/-- Modelled from the spec: the remote store's merge semantics for the
`PATCH /jobs/{job_id}` partial update (the store itself,
`openeo-job-tracker-elastic-api`, is not part of this repository).  Per the
spec, a partial update "merges named fields into an existing record without
touching unnamed fields", and `remove_dependencies` clears the patched
fields "to absent", so a null patch value removes the field and any other
patch value replaces it. -/
def applyPartialUpdate (record : JobDict) (data : List (String × JVal)) :
    JobDict :=
  (List.filter (fun kv => !((data.map Prod.fst).contains kv.1)) record) ++
    List.filter (fun kv => !(JVal.isNull kv.2)) data

/-- A finite Python `decimal.Decimal` value as reachable by parsing a
numeric string: signed integer coefficient `m` and exponent `e`, denoting
`m * 10 ^ e` (negative zero is identified with zero; the special values
NaN and Infinity are out of scope).  `set_dependency_usage` serializes such
a value with `str`, which follows the to-scientific-string algorithm of the
General Decimal Arithmetic specification that `decimal` implements. -/
structure Dec where
  m : Int
  e : Int
deriving DecidableEq, Repr

/-- Numeric value of a decimal digit character. -/
def charVal (c : Char) : Nat := c.toNat - 48

/-- Value of a big-endian run of decimal digit characters. -/
def digitsVal : List Char → Nat
  | [] => 0
  | c :: cs => charVal c * 10 ^ cs.length + digitsVal cs

/-- The decimal digit characters of a natural number, big-endian
(`"0"` for zero). -/
def natDigitChars (n : Nat) : List Char :=
  if n = 0 then ['0'] else ((Nat.digits 10 n).map Nat.digitChar).reverse

/-- `str` on a finite `Decimal`, per the to-scientific-string algorithm:
with `n` coefficient digits and adjusted exponent `a = e + n - 1`, use plain
notation when `e ≤ 0` and `a ≥ -6` (inserting a decimal point or padding
with leading zeros as needed), else exponential notation
`d[.ddd]E±a`. -/
def Dec.toSciChars (d : Dec) : List Char :=
  let ds := natDigitChars d.m.natAbs
  let n : Int := ds.length
  let a : Int := d.e + n - 1
  let signChars : List Char := if d.m < 0 then [Char.ofNat 45] else []
  if d.e ≤ 0 ∧ -6 ≤ a then
    if d.e = 0 then signChars ++ ds
    else if -d.e < n then
      signChars ++ ds.take (n + d.e).toNat ++
        Char.ofNat 46 :: ds.drop (n + d.e).toNat
    else
      signChars ++ Char.ofNat 48 :: Char.ofNat 46 ::
        (List.replicate (-d.e - n).toNat (Char.ofNat 48) ++ ds)
  else
    let expChars := (if a < 0 then [Char.ofNat 45] else [Char.ofNat 43]) ++
      natDigitChars a.natAbs
    match ds with
    | [] => []
    | d0 :: rest =>
      signChars ++ d0 ::
        ((if rest.isEmpty then [] else Char.ofNat 46 :: rest) ++
          Char.ofNat 69 :: expChars)

/-- `str(d)` for a finite `Decimal`. -/
def Dec.toSciString (d : Dec) : String := String.mk d.toSciChars

/-- An optional leading sign, as in the `decimal` numeric-string parser:
consumed sign factor and remaining input. -/
def parseSign (cs : List Char) : Int × List Char :=
  match cs with
  | c :: r =>
    if c = Char.ofNat 43 then (1, r)
    else if c = Char.ofNat 45 then (-1, r)
    else (1, cs)
  | [] => (1, cs)

/-- Is `c` a decimal digit character? -/
def isDigitCh (c : Char) : Bool := 48 ≤ c.toNat && c.toNat ≤ 57

/-- A maximal run of decimal digit characters and the remaining input. -/
def parseDigitRun (cs : List Char) : List Char × List Char :=
  (cs.takeWhile isDigitCh, cs.dropWhile isDigitCh)

/-- The optional fraction of the `decimal` numeric-string grammar: a digit
run after a leading decimal point, else nothing; with the remaining
input. -/
def parseFrac : List Char → List Char × List Char
  | [] => ([], [])
  | c :: r =>
    if c = Char.ofNat 46 then parseDigitRun r else ([], c :: r)

/-- The exponent-digit step of the exponent part: the digit run after the
exponent sign must be non-empty and consume the rest of the input. -/
def parseExpDigits (fp : List Char) (coeff : Nat) (esgn : Int) :
    List Char × List Char → Option (Nat × Int)
  | (ed, r3) =>
    if ed.isEmpty || !r3.isEmpty then none
    else some (coeff, esgn * (digitsVal ed : Int) - (fp.length : Int))

/-- The sign step of the exponent part. -/
def parseExpSigned (fp : List Char) (coeff : Nat) :
    Int × List Char → Option (Nat × Int)
  | (esgn, r2) => parseExpDigits fp coeff esgn (parseDigitRun r2)

/-- The optional exponent of the `decimal` numeric-string grammar:
`(e|E) sign? digits` or end of input; yields the coefficient and the
exponent (the explicit exponent minus the fraction length). -/
def parseExpTail (fp : List Char) (coeff : Nat) :
    List Char → Option (Nat × Int)
  | [] => some (coeff, -(fp.length : Int))
  | c :: r =>
    if c = Char.ofNat 101 ∨ c = Char.ofNat 69 then
      parseExpSigned fp coeff (parseSign r)
    else none

/-- The fraction-run step of the unsigned numeric form: at least one digit
must appear in the integer or fraction part; the coefficient is the
concatenated digit runs. -/
def parseUnsignedFrac (ip : List Char) :
    List Char × List Char → Option (Nat × Int)
  | (fp, rest2) =>
    if ip.isEmpty && fp.isEmpty then none
    else parseExpTail fp (digitsVal (ip ++ fp)) rest2

/-- The integer-run step of the unsigned numeric form. -/
def parseUnsignedInt : List Char × List Char → Option (Nat × Int)
  | (ip, rest1) => parseUnsignedFrac ip (parseFrac rest1)

/-- The unsigned part of the `decimal` numeric-string grammar:
`digits [. digits] [(e|E) sign? digits]`, requiring at least one digit in
the integer or fraction part and no trailing input; yields the coefficient
(the concatenated digit runs) and the exponent (the explicit exponent minus
the fraction length). -/
def parseUnsigned (cs : List Char) : Option (Nat × Int) :=
  parseUnsignedInt (parseDigitRun cs)

/-- The numeric-string parser of the `decimal` module (finite numbers,
without surrounding whitespace): an optional sign followed by the unsigned
numeric form. -/
def parseDecChars (cs : List Char) : Option Dec :=
  let sg := parseSign cs
  (parseUnsigned sg.2).map (fun p => ⟨sg.1 * (p.1 : Int), p.2⟩)

/-- `Decimal(s)` on a numeric string. -/
def parseDecimal (s : String) : Option Dec := parseDecChars s.data

namespace ElasticJobRegistry

/-- `ElasticJobRegistry.set_dependency_usage`: single-field partial update,
serializing the `Decimal` as its exact decimal text form
`str(dependency_usage)`. -/
def set_dependency_usage (job_id : String) (dependency_usage : Dec) :
    EjrRequest :=
  _update job_id (.obj [("dependency_usage", .str dependency_usage.toSciString)])

end ElasticJobRegistry

/-- The string a JSON value holds, if it is a string. -/
def JVal.asString : JVal → Option String
  | .str s => some s
  | _ => none

/-- Field access on a request body that is a JSON object. -/
def EjrRequest.bodyGet (r : EjrRequest) (k : String) : Option JVal :=
  match r.body with
  | .obj kvs => List.lookup k kvs
  | _ => none

/-- The clause list of a `bool`/`filter` query document (as all three
search queries of the module are shaped). -/
def queryFilterClauses (q : JVal) : List JVal :=
  match q with
  | .obj [("bool", .obj [("filter", .arr cs)])] => cs
  | _ => []

/-- The `gte` bounds of the `range` clauses of a `bool`/`filter` query. -/
def rangeGteStrings (q : JVal) : List String :=
  (queryFilterClauses q).filterMap (fun c =>
    match c with
    | .obj [("range", .obj [(_, .obj [("gte", .str g)])])] => some g
    | _ => none)

/-- The `_source` field projection of a `POST /jobs/search` request body. -/
def sourceFields (r : EjrRequest) : List String :=
  match r.body with
  | .obj [("query", _), ("_source", .arr fs)] => fs.filterMap JVal.asString
  | _ => []

/-! ## Helper lemmas -/

theorem lookup_none_of_keys {l : List (String × JVal)} {k : String}
    (h : ∀ kv ∈ l, (k == kv.1) = false) : List.lookup k l = none := by
  induction l with
  | nil => rfl
  | cons kv t ih =>
    obtain ⟨k1, v1⟩ := kv
    have h1 := h (k1, v1) (List.mem_cons_self _ _)
    simp only [List.lookup, h1]
    exact ih (fun kv hm => h kv (List.mem_cons_of_mem _ hm))

theorem lookup_append_none {l₁ l₂ : List (String × JVal)} {k : String}
    (h1 : List.lookup k l₁ = none) (h2 : List.lookup k l₂ = none) :
    List.lookup k (l₁ ++ l₂) = none := by
  induction l₁ with
  | nil => simpa using h2
  | cons kv t ih =>
    obtain ⟨k1, v1⟩ := kv
    cases hbe : (k == k1) with
    | true => simp [List.lookup, hbe] at h1
    | false =>
      rw [List.cons_append]
      simp only [List.lookup, hbe] at h1 ⊢
      exact ih h1

/-! ## C1 -/

/-- C1: `get_job` on the record list returned by the search raises
`JobNotFoundException` naming the job id on zero matches, raises
`InternalException` on two or more matches and never returns one of the
records, and returns a record only when exactly one match exists. -/
theorem get_job_match_cardinality (job_id : String) (jobs : List JobDict) :
    (jobs.length = 0 →
      ElasticJobRegistry.get_job_handle job_id jobs =
        .error (.jobNotFound job_id)) ∧
    (2 ≤ jobs.length →
      ElasticJobRegistry.get_job_handle job_id jobs =
        .error (.internalException
          (ElasticJobRegistry.multipleJobsMsg job_id jobs.length)) ∧
      ∀ j, ElasticJobRegistry.get_job_handle job_id jobs ≠ .ok j) ∧
    (∀ j, ElasticJobRegistry.get_job_handle job_id jobs = .ok j →
      jobs.length = 1) := by
  rcases jobs with _ | ⟨a, _ | ⟨b, t⟩⟩
  · exact ⟨fun _ => rfl, fun h => absurd h (by simp),
      fun j h => by simp [ElasticJobRegistry.get_job_handle] at h⟩
  · refine ⟨fun h => by simp at h, fun h => by simp at h, fun j _ => rfl⟩
  · refine ⟨fun h => by simp at h, fun _ => ⟨rfl, fun j h => ?_⟩,
      fun j h => ?_⟩ <;>
      simp [ElasticJobRegistry.get_job_handle] at h

/-- Witness for C1: concrete zero-match and two-match searches. -/
theorem get_job_match_cardinality_witness :
    ElasticJobRegistry.get_job_handle "j-1" ([] : List JobDict) =
      .error (.jobNotFound "j-1") ∧
    ElasticJobRegistry.get_job_handle "j-1"
        [[("job_id", JVal.str "j-1")], [("job_id", JVal.str "j-1")]] =
      .error (.internalException
        (ElasticJobRegistry.multipleJobsMsg "j-1" 2)) :=
  ⟨(get_job_match_cardinality "j-1" []).1 rfl,
   ((get_job_match_cardinality "j-1"
      [[("job_id", JVal.str "j-1")], [("job_id", JVal.str "j-1")]]).2.1
      (by decide)).1⟩

/-! ## C10 -/

/-- C10: on exactly one match, `get_job` asserts that the record's `job_id`
field equals the requested job id: a differing single match yields the
assertion failure and is not returned; an equal one is returned. -/
theorem get_job_asserts_requested_id (job_id : String) (job : JobDict)
    (v : JVal) (hv : JobDict.get job "job_id" = some v) :
    (v.eqStr job_id = false →
      ElasticJobRegistry.get_job_handle job_id [job] =
        .error (.assertionError ("job job_id != " ++ job_id)) ∧
      ∀ r, ElasticJobRegistry.get_job_handle job_id [job] ≠ .ok r) ∧
    (v.eqStr job_id = true →
      ElasticJobRegistry.get_job_handle job_id [job] = .ok job) := by
  constructor
  · intro hf
    constructor
    · simp [ElasticJobRegistry.get_job_handle, hv, hf]
    · intro r h
      simp [ElasticJobRegistry.get_job_handle, hv, hf] at h
  · intro ht
    simp [ElasticJobRegistry.get_job_handle, hv, ht]

/-- Witness for C10: a single match carrying a different job id triggers
the assertion failure. -/
theorem get_job_asserts_requested_id_witness :
    ElasticJobRegistry.get_job_handle "j-1" [[("job_id", JVal.str "j-2")]] =
      .error (.assertionError ("job job_id != " ++ "j-1")) :=
  ((get_job_asserts_requested_id "j-1" [("job_id", JVal.str "j-2")]
    (JVal.str "j-2") rfl).1 rfl).1

/-! ## C2 -/

/-- C2: the initial record submitted by `create_job` carries a job id that
is the generated one when none is given, status `created`, and
`created = updated = now`; the request expects HTTP 201. -/
theorem create_job_initial_record (backend_id : String) (process : JVal)
    (user_id : String) (job_id : Option String) (title : Option String)
    (description : Option String) (parent_id : Option String)
    (api_version : Option String) (job_options : Option JVal)
    (generated_id : String) (created : String) :
    (ElasticJobRegistry.create_job backend_id process user_id job_id title
        description parent_id api_version job_options generated_id
        created).bodyGet "status" = some (.str "created") ∧
    (ElasticJobRegistry.create_job backend_id process user_id job_id title
        description parent_id api_version job_options generated_id
        created).bodyGet "created" = some (.str created) ∧
    (ElasticJobRegistry.create_job backend_id process user_id job_id title
        description parent_id api_version job_options generated_id
        created).bodyGet "updated" = some (.str created) ∧
    (ElasticJobRegistry.create_job backend_id process user_id job_id title
        description parent_id api_version job_options generated_id
        created).expected_status = 201 ∧
    (job_id = none →
      (ElasticJobRegistry.create_job backend_id process user_id job_id title
        description parent_id api_version job_options generated_id
        created).bodyGet "job_id" = some (.str generated_id)) := by
  refine ⟨rfl, rfl, rfl, rfl, fun h => ?_⟩
  subst h
  rfl

/-- Witness for C2: a concrete creation with no job id given. -/
theorem create_job_initial_record_witness :
    (ElasticJobRegistry.create_job "b" (JVal.obj []) "alice" none none none
      none none none "j-gen" "2022-01-01T00:00:00Z").bodyGet "job_id" =
      some (.str "j-gen") :=
  (create_job_initial_record "b" (JVal.obj []) "alice" none none none none
    none none "j-gen" "2022-01-01T00:00:00Z").2.2.2.2 rfl

/-! ## C3 -/

/-- C3: every mutation operation goes through the single partial-update
primitive `_update` (a PATCH of one job id with default expected status),
and each update payload holds exactly the fields being set (for
`set_status`: `status` and the `updated` timestamp, plus `started` and
`finished` only when supplied). -/
theorem mutations_single_partial_update (job_id : String) (status : String)
    (updated : Option String) (started : Option String)
    (finished : Option String) (rfc3339_datetime : String → String)
    (now : String) (dependencies : List JVal) (dependency_status : String)
    (dependency_usage : Dec) (proxy_user : String)
    (application_id : String) :
    (∀ d, (ElasticJobRegistry._update job_id d).method = "PATCH" ∧
      (ElasticJobRegistry._update job_id d).path = "/jobs/" ++ job_id ∧
      (ElasticJobRegistry._update job_id d).expected_status = 200) ∧
    (∃ d, ElasticJobRegistry.set_status job_id status updated started
        finished rfc3339_datetime now = ElasticJobRegistry._update job_id d ∧
      d.objKeys = ["status", "updated"] ++
        (if truthyStr started then ["started"] else []) ++
        (if truthyStr finished then ["finished"] else [])) ∧
    (∃ d, ElasticJobRegistry.set_dependencies job_id dependencies =
        ElasticJobRegistry._update job_id d ∧
      d.objKeys = ["dependencies"]) ∧
    (∃ d, ElasticJobRegistry.remove_dependencies job_id =
        ElasticJobRegistry._update job_id d ∧
      d.objKeys = ["dependencies", "dependency_status"]) ∧
    (∃ d, ElasticJobRegistry.set_dependency_status job_id dependency_status =
        ElasticJobRegistry._update job_id d ∧
      d.objKeys = ["dependency_status"]) ∧
    (∃ d, ElasticJobRegistry.set_dependency_usage job_id dependency_usage =
        ElasticJobRegistry._update job_id d ∧
      d.objKeys = ["dependency_usage"]) ∧
    (∃ d, ElasticJobRegistry.set_proxy_user job_id proxy_user =
        ElasticJobRegistry._update job_id d ∧
      d.objKeys = ["proxy_user"]) ∧
    (∃ d, ElasticJobRegistry.set_application_id job_id application_id =
        ElasticJobRegistry._update job_id d ∧
      d.objKeys = ["application_id"]) := by
  refine ⟨fun d => ⟨rfl, rfl, rfl⟩, ⟨_, rfl, ?_⟩, ⟨_, rfl, rfl⟩,
    ⟨_, rfl, rfl⟩, ⟨_, rfl, rfl⟩, ⟨_, rfl, rfl⟩, ⟨_, rfl, rfl⟩,
    ⟨_, rfl, rfl⟩⟩
  by_cases hs : truthyStr started <;> by_cases hf : truthyStr finished <;>
    simp [ElasticJobRegistry.set_status, hs, hf, JVal.objKeys]

/-! ## C4 -/

/-- C4: a single `remove_dependencies` call issues one partial update
setting both `dependencies` and `dependency_status` to null, and (under the
spec-modelled merge semantics of the store) both fields are absent
afterwards regardless of the prior record. -/
theorem remove_dependencies_clears_both (job_id : String)
    (record : JobDict) :
    ElasticJobRegistry.remove_dependencies job_id =
      ElasticJobRegistry._update job_id
        (.obj [("dependencies", .null), ("dependency_status", .null)]) ∧
    JobDict.get (applyPartialUpdate record
        [("dependencies", .null), ("dependency_status", .null)])
      "dependencies" = none ∧
    JobDict.get (applyPartialUpdate record
        [("dependencies", .null), ("dependency_status", .null)])
      "dependency_status" = none := by
  have key : ∀ k : String, k ∈ (["dependencies", "dependency_status"] :
      List String) →
      List.lookup k (applyPartialUpdate record
        [("dependencies", JVal.null), ("dependency_status", JVal.null)]) =
        none := by
    intro k hk
    show List.lookup k (_ ++ _) = none
    refine lookup_append_none (lookup_none_of_keys ?_) rfl
    intro kv hm
    have hf := (List.mem_filter.mp hm).2
    simp only [List.map_cons, List.map_nil, Bool.not_eq_true',
      List.contains_cons, List.contains_nil, Bool.or_eq_false_iff] at hf
    rw [beq_eq_false_iff_ne]
    intro he
    rw [← he] at hf
    simp only [List.mem_cons, List.not_mem_nil, or_false] at hk
    rcases hk with rfl | rfl
    · simp at hf
    · simp at hf
  exact ⟨rfl, key "dependencies" (by decide),
    key "dependency_status" (by decide)⟩

/-! ## C5 -/

/-- C5 (amended): when `expected_status` is truthy and the response status
differs, `_do_request` raises the HTTP error built by
`EjrHttpError.from_response` (status code, reason, method, URL, body text);
when `expected_status` is falsy it classifies generically via
`raise_for_status`, succeeding exactly on statuses outside the 400–599
error range (in particular on every 2xx); when the status equals a truthy
`expected_status` the generic classifier still runs, so the parsed body is
returned exactly when the status is also outside the error range (as it is
at every call site, which expect 200 or 201). -/
theorem do_request_status_classification (method url : String)
    (expected_status : Nat) (resp : HttpResponse) :
    (expected_status ≠ 0 → resp.status_code ≠ expected_status →
      ElasticJobRegistry.handle_response method url expected_status resp =
        .error (.ejrHttpError (ejrHttpErrorMsg method url resp)
          resp.status_code)) ∧
    (expected_status = 0 →
      (ElasticJobRegistry.handle_response method url expected_status resp =
          .ok resp.body ↔
        ¬(400 ≤ resp.status_code ∧ resp.status_code < 600))) ∧
    (expected_status = 0 → 200 ≤ resp.status_code →
      resp.status_code < 300 →
      ElasticJobRegistry.handle_response method url expected_status resp =
        .ok resp.body) ∧
    (expected_status ≠ 0 → resp.status_code = expected_status →
      ElasticJobRegistry.handle_response method url expected_status resp =
        if 400 ≤ resp.status_code ∧ resp.status_code < 600
        then .error (.requestsHttpError resp.status_code)
        else .ok resp.body) := by
  refine ⟨fun h1 h2 => ?_, fun h0 => ?_, fun h0 ha hb => ?_,
    fun h1 h2 => ?_⟩
  · simp [ElasticJobRegistry.handle_response, h1, h2]
  · subst h0
    by_cases hr : 400 ≤ resp.status_code ∧ resp.status_code < 600
    · simp [ElasticJobRegistry.handle_response, hr]
    · simp [ElasticJobRegistry.handle_response, hr]
  · subst h0
    have hr : ¬(400 ≤ resp.status_code ∧ resp.status_code < 600) := by omega
    simp [ElasticJobRegistry.handle_response, hr]
  · simp [ElasticJobRegistry.handle_response, h1, h2]

/-- Witness for C5: a 503 as answer to an expected-200 request yields the
canonical HTTP error. -/
theorem do_request_status_classification_witness :
    (200 : Nat) ≠ 0 ∧ (503 : Nat) ≠ 200 ∧
    ElasticJobRegistry.handle_response "GET" "https://ejr.test/jobs" 200
        { status_code := 503, reason := "Service Unavailable",
          text := "oops", body := .null } =
      .error (.ejrHttpError
        (ejrHttpErrorMsg "GET" "https://ejr.test/jobs"
          { status_code := 503, reason := "Service Unavailable",
            text := "oops", body := .null }) 503) :=
  ⟨by decide, by decide,
    (do_request_status_classification "GET" "https://ejr.test/jobs" 200
      { status_code := 503, reason := "Service Unavailable",
        text := "oops", body := .null }).1 (by decide) (by decide)⟩

/-- Counterexample for C5 as stated: with falsy `expected_status` a 304
(not a 2xx) response still succeeds, and with a truthy `expected_status`
equal to the (error-range) response status the body is not returned. -/
theorem do_request_generic_not_exactly_2xx :
    ElasticJobRegistry.handle_response "GET" "https://ejr.test/health" 0
        { status_code := 304, reason := "Not Modified", text := "",
          body := .null } = .ok .null ∧
    ¬(200 ≤ 304 ∧ 304 < 300) ∧
    ElasticJobRegistry.handle_response "GET" "https://ejr.test/x" 404
        { status_code := 404, reason := "Not Found", text := "",
          body := .null } =
      .error (.requestsHttpError 404) :=
  ⟨rfl, by decide, rfl⟩

/-! ## C6 -/

theorem from_mapping_spec (data : List (String × String)) :
    (∀ i c s, data.lookup "oidc_issuer" = some i →
      data.lookup "client_id" = some c →
      data.lookup "client_secret" = some s →
      ∀ strict, ElasticJobRegistryCredentials.from_mapping data strict =
        .ok (some ⟨i, c, s⟩)) ∧
    ((data.lookup "oidc_issuer").isNone = true ∨
        (data.lookup "client_id").isNone = true ∨
        (data.lookup "client_secret").isNone = true →
      ElasticJobRegistryCredentials.from_mapping data true =
        .error (.ejrConfigMissing
          "Failed building ElasticJobRegistryCredentials from mapping: missing"
          (ElasticJobRegistryCredentials.mappingArgs.filter
            (fun a => (data.lookup a).isNone))) ∧
      ElasticJobRegistryCredentials.from_mapping data false = .ok none) := by
  constructor
  · intro i c s hi hc hs strict
    simp only [ElasticJobRegistryCredentials.from_mapping]
    rw [hi, hc, hs]
  · intro hmiss
    have hforce : data.lookup "oidc_issuer" = none ∨
        data.lookup "client_id" = none ∨
        data.lookup "client_secret" = none := by
      simpa [Option.isNone_iff_eq_none] using hmiss
    constructor <;>
    · simp only [ElasticJobRegistryCredentials.from_mapping]
      rcases h1 : data.lookup "oidc_issuer" with _ | i0
      · rfl
      · rcases h2 : data.lookup "client_id" with _ | c0
        · rfl
        · rcases h3 : data.lookup "client_secret" with _ | s0
          · rfl
          · rcases hforce with h | h | h
            · exact Option.noConfusion (h1 ▸ h)
            · exact Option.noConfusion (h2 ▸ h)
            · exact Option.noConfusion (h3 ▸ h)

theorem from_env_spec (env : List (String × String)) :
    (∀ i c s, env.lookup "OPENEO_EJR_OIDC_ISSUER" = some i →
      env.lookup "OPENEO_EJR_OIDC_CLIENT_ID" = some c →
      env.lookup "OPENEO_EJR_OIDC_CLIENT_SECRET" = some s →
      ∀ strict, ElasticJobRegistryCredentials.from_env env strict =
        .ok (some ⟨i, c, s⟩)) ∧
    ((env.lookup "OPENEO_EJR_OIDC_ISSUER").isNone = true ∨
        (env.lookup "OPENEO_EJR_OIDC_CLIENT_ID").isNone = true ∨
        (env.lookup "OPENEO_EJR_OIDC_CLIENT_SECRET").isNone = true →
      ElasticJobRegistryCredentials.from_env env true =
        .error (.ejrConfigMissing
          "Failed building ElasticJobRegistryCredentials from env: missing"
          (ElasticJobRegistryCredentials.envVars.filter
            (fun e => (env.lookup e).isNone))) ∧
      ElasticJobRegistryCredentials.from_env env false = .ok none) := by
  constructor
  · intro i c s hi hc hs strict
    simp only [ElasticJobRegistryCredentials.from_env]
    rw [hi, hc, hs]
  · intro hmiss
    have hforce : env.lookup "OPENEO_EJR_OIDC_ISSUER" = none ∨
        env.lookup "OPENEO_EJR_OIDC_CLIENT_ID" = none ∨
        env.lookup "OPENEO_EJR_OIDC_CLIENT_SECRET" = none := by
      simpa [Option.isNone_iff_eq_none] using hmiss
    constructor <;>
    · simp only [ElasticJobRegistryCredentials.from_env]
      rcases h1 : env.lookup "OPENEO_EJR_OIDC_ISSUER" with _ | i0
      · rfl
      · rcases h2 : env.lookup "OPENEO_EJR_OIDC_CLIENT_ID" with _ | c0
        · rfl
        · rcases h3 : env.lookup "OPENEO_EJR_OIDC_CLIENT_SECRET" with _ | s0
          · rfl
          · rcases hforce with h | h | h
            · exact Option.noConfusion (h1 ▸ h)
            · exact Option.noConfusion (h2 ▸ h)
            · exact Option.noConfusion (h3 ▸ h)

/-- C6: building the credential triple from a mapping or the environment
with `strict` fails with a configuration error naming every missing
required key when any is absent, returns an absent result instead when not
strict, and returns the credential object in both modes when all three
values are present. -/
theorem credentials_strict_missing_keys (data env : List (String × String)) :
    ((∀ i c s, data.lookup "oidc_issuer" = some i →
        data.lookup "client_id" = some c →
        data.lookup "client_secret" = some s →
        ∀ strict, ElasticJobRegistryCredentials.from_mapping data strict =
          .ok (some ⟨i, c, s⟩)) ∧
      ((data.lookup "oidc_issuer").isNone = true ∨
          (data.lookup "client_id").isNone = true ∨
          (data.lookup "client_secret").isNone = true →
        ElasticJobRegistryCredentials.from_mapping data true =
          .error (.ejrConfigMissing
            "Failed building ElasticJobRegistryCredentials from mapping: missing"
            (ElasticJobRegistryCredentials.mappingArgs.filter
              (fun a => (data.lookup a).isNone))) ∧
        ElasticJobRegistryCredentials.from_mapping data false = .ok none)) ∧
    ((∀ i c s, env.lookup "OPENEO_EJR_OIDC_ISSUER" = some i →
        env.lookup "OPENEO_EJR_OIDC_CLIENT_ID" = some c →
        env.lookup "OPENEO_EJR_OIDC_CLIENT_SECRET" = some s →
        ∀ strict, ElasticJobRegistryCredentials.from_env env strict =
          .ok (some ⟨i, c, s⟩)) ∧
      ((env.lookup "OPENEO_EJR_OIDC_ISSUER").isNone = true ∨
          (env.lookup "OPENEO_EJR_OIDC_CLIENT_ID").isNone = true ∨
          (env.lookup "OPENEO_EJR_OIDC_CLIENT_SECRET").isNone = true →
        ElasticJobRegistryCredentials.from_env env true =
          .error (.ejrConfigMissing
            "Failed building ElasticJobRegistryCredentials from env: missing"
            (ElasticJobRegistryCredentials.envVars.filter
              (fun e => (env.lookup e).isNone))) ∧
        ElasticJobRegistryCredentials.from_env env false = .ok none)) ∧
    (∀ a, a ∈ ElasticJobRegistryCredentials.mappingArgs.filter
        (fun a => (data.lookup a).isNone) ↔
      (a ∈ ElasticJobRegistryCredentials.mappingArgs ∧
        (data.lookup a).isNone = true)) ∧
    (∀ e, e ∈ ElasticJobRegistryCredentials.envVars.filter
        (fun e => (env.lookup e).isNone) ↔
      (e ∈ ElasticJobRegistryCredentials.envVars ∧
        (env.lookup e).isNone = true)) :=
  ⟨from_mapping_spec data, from_env_spec env,
    fun a => List.mem_filter,
    fun e => List.mem_filter⟩

/-- Witness for C6: a mapping missing exactly `client_id` fails strictly
naming it, succeeds as absent non-strictly; a complete mapping builds the
triple. -/
theorem credentials_strict_missing_keys_witness :
    ElasticJobRegistryCredentials.from_mapping
        [("oidc_issuer", "https://oidc.test"), ("client_secret", "s3")]
        true =
      .error (.ejrConfigMissing
        "Failed building ElasticJobRegistryCredentials from mapping: missing"
        ["client_id"]) ∧
    ElasticJobRegistryCredentials.from_mapping
        [("oidc_issuer", "https://oidc.test"), ("client_secret", "s3")]
        false = .ok none ∧
    ElasticJobRegistryCredentials.from_env
        [("OPENEO_EJR_OIDC_ISSUER", "https://oidc.test"),
         ("OPENEO_EJR_OIDC_CLIENT_ID", "cid"),
         ("OPENEO_EJR_OIDC_CLIENT_SECRET", "s3")] true =
      .ok (some { oidc_issuer := "https://oidc.test", client_id := "cid",
                  client_secret := "s3" }) :=
  ⟨((credentials_strict_missing_keys
      [("oidc_issuer", "https://oidc.test"), ("client_secret", "s3")]
      []).1.2 (by decide)).1,
   ((credentials_strict_missing_keys
      [("oidc_issuer", "https://oidc.test"), ("client_secret", "s3")]
      []).1.2 (by decide)).2,
   (credentials_strict_missing_keys []
      [("OPENEO_EJR_OIDC_ISSUER", "https://oidc.test"),
       ("OPENEO_EJR_OIDC_CLIENT_ID", "cid"),
       ("OPENEO_EJR_OIDC_CLIENT_SECRET", "s3")]).2.1.1
      "https://oidc.test" "cid" "s3" rfl rfl rfl true⟩

/-! ## C8 -/

theorem mem_searchFields (fields : Option (List String)) (f : String)
    (hf : f ∈ ElasticJobRegistry.basicSearchFields) :
    f ∈ ElasticJobRegistry.searchFields fields := by
  unfold ElasticJobRegistry.searchFields
  rw [List.mem_dedup]
  exact List.mem_append_right _ hf

theorem sourceFields_search (q : JVal) (fs : Option (List String)) :
    sourceFields (ElasticJobRegistry._search q fs) =
      ElasticJobRegistry.searchFields fs := by
  show List.filterMap JVal.asString
    ((ElasticJobRegistry.searchFields fs).map JVal.str) = _
  rw [List.filterMap_map]
  have hcomp : (JVal.asString ∘ JVal.str) = some := by
    funext s
    rfl
  rw [hcomp, List.filterMap_some]

/-- C8: the field projection sent with every search-based fetch
(`_search`, and via it `get_job`, `list_user_jobs`, `list_active_jobs`)
always includes the five fields `job_id`, `user_id`, `created`, `status`,
`updated`, whatever the caller requested. -/
theorem search_always_projects_basic_fields (query : JVal)
    (fields : Option (List String)) (backend_id : String) (job_id : String)
    (user_id : String) (max_age : Option Int) :
    ∀ f ∈ ElasticJobRegistry.basicSearchFields,
      f ∈ sourceFields (ElasticJobRegistry._search query fields) ∧
      f ∈ sourceFields
        (ElasticJobRegistry.get_job_request backend_id job_id fields) ∧
      f ∈ sourceFields
        (ElasticJobRegistry.list_user_jobs backend_id user_id fields) ∧
      f ∈ sourceFields
        (ElasticJobRegistry.list_active_jobs backend_id max_age fields) := by
  intro f hf
  refine ⟨?_, ?_, ?_, ?_⟩
  · rw [sourceFields_search]
    exact mem_searchFields _ f hf
  · unfold ElasticJobRegistry.get_job_request
    rw [sourceFields_search]
    exact mem_searchFields _ f hf
  · unfold ElasticJobRegistry.list_user_jobs
    rw [sourceFields_search]
    exact mem_searchFields _ f hf
  · unfold ElasticJobRegistry.list_active_jobs
    rw [sourceFields_search]
    exact mem_searchFields _ f hf

/-- Witness for C8: the mandatory `job_id` field is projected even when the
caller requests only `title`. -/
theorem search_always_projects_basic_fields_witness :
    "job_id" ∈ ElasticJobRegistry.basicSearchFields ∧
    "job_id" ∈ sourceFields
      (ElasticJobRegistry.list_user_jobs "b" "alice" (some ["title"])) :=
  ⟨by decide,
    (search_always_projects_basic_fields (JVal.obj []) (some ["title"])
      "b" "j-1" "alice" none "job_id" (by decide)).2.2.1⟩

/-! ## C9 -/

/-- C9 (amended): the `list_active_jobs` query filters on the registry's
backend id, on status in created/queued/running, and on `created` within
the last `max_age` days — where the bound falls back to 7 days when
`max_age` is not given or is falsy (`0`). -/
theorem active_jobs_query_filters (backend_id : String)
    (max_age : Option Int) :
    JVal.obj [("term", JVal.obj [("backend_id", JVal.str backend_id)])] ∈
      queryFilterClauses
        (ElasticJobRegistry.list_active_jobs_query backend_id max_age) ∧
    JVal.obj [("terms", JVal.obj [("status", JVal.arr
        [JVal.str "created", JVal.str "queued", JVal.str "running"])])] ∈
      queryFilterClauses
        (ElasticJobRegistry.list_active_jobs_query backend_id max_age) ∧
    JVal.obj [("range", JVal.obj [("created", JVal.obj [("gte", JVal.str
        ("now-" ++ toString (ElasticJobRegistry.effectiveMaxAge max_age) ++
          "d"))])])] ∈
      queryFilterClauses
        (ElasticJobRegistry.list_active_jobs_query backend_id max_age) ∧
    (max_age = none → ElasticJobRegistry.effectiveMaxAge max_age = 7) ∧
    (max_age = some 0 → ElasticJobRegistry.effectiveMaxAge max_age = 7) ∧
    (∀ n, max_age = some n → n ≠ 0 →
      ElasticJobRegistry.effectiveMaxAge max_age = n) ∧
    (∀ fields, ElasticJobRegistry.list_active_jobs backend_id max_age
        fields =
      ElasticJobRegistry._search
        (ElasticJobRegistry.list_active_jobs_query backend_id max_age)
        fields) := by
  refine ⟨?_, ?_, ?_,
    fun h => by simp [ElasticJobRegistry.effectiveMaxAge, h],
    fun h => by simp [ElasticJobRegistry.effectiveMaxAge, h],
    fun n hn h0 => by
      simp [ElasticJobRegistry.effectiveMaxAge, hn, beq_iff_eq, h0],
    fun fields => rfl⟩ <;>
    simp [queryFilterClauses, ElasticJobRegistry.list_active_jobs_query,
      JOB_STATUS.CREATED, JOB_STATUS.QUEUED, JOB_STATUS.RUNNING]

/-- Witness for C9: a truthy `max_age` of 5 bounds the query at
`now-5d`. -/
theorem active_jobs_query_filters_witness :
    ElasticJobRegistry.effectiveMaxAge (some 5) = 5 ∧
    JVal.obj [("range", JVal.obj [("created", JVal.obj [("gte", JVal.str
        ("now-" ++ toString (ElasticJobRegistry.effectiveMaxAge (some 5)) ++
          "d"))])])] ∈
      queryFilterClauses
        (ElasticJobRegistry.list_active_jobs_query "b" (some 5)) ∧
    ("now-" ++ toString (ElasticJobRegistry.effectiveMaxAge (some 5)) ++
      "d") = "now-5d" :=
  ⟨(active_jobs_query_filters "b" (some 5)).2.2.2.2.2.1 5 rfl (by decide),
   (active_jobs_query_filters "b" (some 5)).2.2.1,
   by decide⟩

/-- Counterexample for C9 as stated: a given `max_age` of 0 is falsy, so
the query bounds `created` at `now-7d`, not at the last 0 days. -/
theorem active_jobs_max_age_zero :
    rangeGteStrings
        (ElasticJobRegistry.list_active_jobs_query "b" (some 0)) =
      ["now-7d"] ∧
    ElasticJobRegistry.list_active_jobs_query "b" (some 0) =
      ElasticJobRegistry.list_active_jobs_query "b" none ∧
    ("now-7d" : String) ≠ "now-0d" :=
  ⟨rfl, rfl, by decide⟩

/-! ## C7: decimal round-trip machinery -/

theorem isDigitCh_digitChar {d : Nat} (h : d < 10) :
    isDigitCh (Nat.digitChar d) = true := by
  interval_cases d <;> decide

theorem charVal_digitChar {d : Nat} (h : d < 10) :
    charVal (Nat.digitChar d) = d := by
  interval_cases d <;> decide

theorem isDigitCh_ne {c : Char} (hc : isDigitCh c = true) :
    c ≠ Char.ofNat 43 ∧ c ≠ Char.ofNat 45 := by
  constructor <;> (rintro rfl; exact absurd hc (by decide))

theorem digitsVal_append (A B : List Char) :
    digitsVal (A ++ B) = digitsVal A * 10 ^ B.length + digitsVal B := by
  induction A with
  | nil => simp [digitsVal]
  | cons c t ih =>
    simp only [List.cons_append, digitsVal, List.length_append, pow_add,
      List.append_eq] at ih ⊢
    rw [ih]
    ring

theorem digitsVal_replicate_zero (z : Nat) :
    digitsVal (List.replicate z (Char.ofNat 48)) = 0 := by
  induction z with
  | zero => rfl
  | succ n ih =>
    have h0 : charVal (Char.ofNat 48) = 0 := rfl
    simp only [List.replicate_succ, digitsVal, ih, h0, Nat.zero_mul,
      Nat.add_zero]

theorem digitsVal_map_digitChar_reverse (ds : List Nat)
    (h : ∀ d ∈ ds, d < 10) :
    digitsVal ((ds.map Nat.digitChar).reverse) = Nat.ofDigits 10 ds := by
  induction ds with
  | nil => simp [digitsVal, Nat.ofDigits_nil]
  | cons d tl ih =>
    have hd : d < 10 := h d (List.mem_cons_self _ _)
    have htl : ∀ x ∈ tl, x < 10 := fun x hx =>
      h x (List.mem_cons_of_mem _ hx)
    rw [List.map_cons, List.reverse_cons, digitsVal_append, ih htl,
      Nat.ofDigits_cons]
    have hsingle : digitsVal [Nat.digitChar d] = d := by
      simp [digitsVal, charVal_digitChar hd]
    rw [hsingle]
    simp only [List.length_singleton, pow_one]
    ring

theorem digitsVal_natDigitChars (n : Nat) :
    digitsVal (natDigitChars n) = n := by
  by_cases h : n = 0
  · subst h
    rfl
  · rw [natDigitChars, if_neg h,
      digitsVal_map_digitChar_reverse _
        (fun d hd => Nat.digits_lt_base (by norm_num) hd),
      Nat.ofDigits_digits]

theorem natDigitChars_ne_nil (n : Nat) : natDigitChars n ≠ [] := by
  by_cases h : n = 0
  · subst h
    simp [natDigitChars]
  · simp [natDigitChars, h, Nat.digits_ne_nil_iff_ne_zero]

theorem mem_natDigitChars {n : Nat} {c : Char} (hc : c ∈ natDigitChars n) :
    isDigitCh c = true := by
  by_cases h : n = 0
  · subst h
    simp [natDigitChars] at hc
    subst hc
    decide
  · rw [natDigitChars, if_neg h] at hc
    rw [List.mem_reverse, List.mem_map] at hc
    obtain ⟨d, hd, rfl⟩ := hc
    exact isDigitCh_digitChar (Nat.digits_lt_base (by norm_num) hd)

theorem takeWhile_all {p : Char → Bool} {A : List Char}
    (h : ∀ c ∈ A, p c = true) : A.takeWhile p = A := by
  induction A with
  | nil => rfl
  | cons c t ih =>
    rw [List.takeWhile_cons, if_pos (h c (List.mem_cons_self _ _)),
      ih (fun x hx => h x (List.mem_cons_of_mem _ hx))]

theorem dropWhile_all {p : Char → Bool} {A : List Char}
    (h : ∀ c ∈ A, p c = true) : A.dropWhile p = [] := by
  induction A with
  | nil => rfl
  | cons c t ih =>
    rw [List.dropWhile_cons, if_pos (h c (List.mem_cons_self _ _)),
      ih (fun x hx => h x (List.mem_cons_of_mem _ hx))]

theorem takeWhile_append_cons {p : Char → Bool} {A B : List Char} {b : Char}
    (h : ∀ c ∈ A, p c = true) (hb : p b = false) :
    (A ++ b :: B).takeWhile p = A := by
  induction A with
  | nil => simp [List.takeWhile_cons, hb]
  | cons c t ih =>
    rw [List.cons_append, List.takeWhile_cons,
      if_pos (h c (List.mem_cons_self _ _)),
      ih (fun x hx => h x (List.mem_cons_of_mem _ hx))]

theorem dropWhile_append_cons {p : Char → Bool} {A B : List Char} {b : Char}
    (h : ∀ c ∈ A, p c = true) (hb : p b = false) :
    (A ++ b :: B).dropWhile p = b :: B := by
  induction A with
  | nil => simp [List.dropWhile_cons, hb]
  | cons c t ih =>
    rw [List.cons_append, List.dropWhile_cons,
      if_pos (h c (List.mem_cons_self _ _)),
      ih (fun x hx => h x (List.mem_cons_of_mem _ hx))]

theorem parseDigitRun_all {A : List Char}
    (h : ∀ c ∈ A, isDigitCh c = true) : parseDigitRun A = (A, []) := by
  rw [parseDigitRun, takeWhile_all h, dropWhile_all h]

theorem parseDigitRun_append_cons {A B : List Char} {b : Char}
    (h : ∀ c ∈ A, isDigitCh c = true) (hb : isDigitCh b = false) :
    parseDigitRun (A ++ b :: B) = (A, b :: B) := by
  rw [parseDigitRun, takeWhile_append_cons h hb, dropWhile_append_cons h hb]

theorem parseSign_plus (r : List Char) :
    parseSign (Char.ofNat 43 :: r) = (1, r) := rfl

theorem parseSign_dash (r : List Char) :
    parseSign (Char.ofNat 45 :: r) = (-1, r) := rfl

theorem parseSign_digit {c : Char} (r : List Char)
    (hc : isDigitCh c = true) : parseSign (c :: r) = (1, c :: r) := by
  rw [parseSign, if_neg (isDigitCh_ne hc).1, if_neg (isDigitCh_ne hc).2]

theorem isEmpty_false_of_ne_nil {l : List Char} (h : l ≠ []) :
    l.isEmpty = false := by
  cases l with
  | nil => exact absurd rfl h
  | cons c t => rfl

theorem parseFrac_nil : parseFrac [] = ([], []) := rfl

theorem parseFrac_point (r : List Char) :
    parseFrac (Char.ofNat 46 :: r) = parseDigitRun r := by
  rw [parseFrac, if_pos rfl]

theorem parseFrac_other {c : Char} (r : List Char)
    (h : c ≠ Char.ofNat 46) : parseFrac (c :: r) = ([], c :: r) := by
  rw [parseFrac, if_neg h]

theorem parseUnsigned_digits {I : List Char} (hne : I ≠ [])
    (hd : ∀ c ∈ I, isDigitCh c = true) :
    parseUnsigned I = some (digitsVal I, 0) := by
  rw [parseUnsigned, parseDigitRun_all hd, parseUnsignedInt, parseFrac_nil,
    parseUnsignedFrac, isEmpty_false_of_ne_nil hne]
  simp [parseExpTail]

theorem parseUnsigned_point {I F : List Char} (hne : I ≠ [])
    (hdI : ∀ c ∈ I, isDigitCh c = true)
    (hdF : ∀ c ∈ F, isDigitCh c = true) :
    parseUnsigned (I ++ Char.ofNat 46 :: F) =
      some (digitsVal (I ++ F), -(F.length : Int)) := by
  rw [parseUnsigned, parseDigitRun_append_cons hdI (by decide),
    parseUnsignedInt, parseFrac_point, parseDigitRun_all hdF,
    parseUnsignedFrac, isEmpty_false_of_ne_nil hne]
  simp [parseExpTail]

theorem parseUnsigned_sci_nopoint {I ED es : List Char} {esgn : Int}
    (hne : I ≠ []) (hdI : ∀ c ∈ I, isDigitCh c = true) (hED : ED ≠ [])
    (hdED : ∀ c ∈ ED, isDigitCh c = true)
    (hes : (es = [Char.ofNat 43] ∧ esgn = 1) ∨
      (es = [Char.ofNat 45] ∧ esgn = -1)) :
    parseUnsigned (I ++ Char.ofNat 69 :: (es ++ ED)) =
      some (digitsVal I, esgn * (digitsVal ED : Int)) := by
  rw [parseUnsigned, parseDigitRun_append_cons hdI (by decide),
    parseUnsignedInt, parseFrac_other _ (by decide),
    parseUnsignedFrac, isEmpty_false_of_ne_nil hne]
  rcases hes with ⟨rfl, rfl⟩ | ⟨rfl, rfl⟩ <;>
  · rw [List.cons_append]
    simp only [Bool.false_and, Bool.false_eq_true, if_false, parseExpTail,
      List.append_nil]
    rw [if_pos (Or.inr trivial)]
    first
    | rw [parseSign_plus]
    | rw [parseSign_dash]
    rw [parseExpSigned, List.nil_append, parseDigitRun_all hdED,
      parseExpDigits, isEmpty_false_of_ne_nil hED]
    simp

theorem parseUnsigned_sci_point {I F ED es : List Char} {esgn : Int}
    (hne : I ≠ []) (hdI : ∀ c ∈ I, isDigitCh c = true)
    (hdF : ∀ c ∈ F, isDigitCh c = true) (hED : ED ≠ [])
    (hdED : ∀ c ∈ ED, isDigitCh c = true)
    (hes : (es = [Char.ofNat 43] ∧ esgn = 1) ∨
      (es = [Char.ofNat 45] ∧ esgn = -1)) :
    parseUnsigned (I ++ Char.ofNat 46 ::
        (F ++ Char.ofNat 69 :: (es ++ ED))) =
      some (digitsVal (I ++ F),
        esgn * (digitsVal ED : Int) - (F.length : Int)) := by
  rw [parseUnsigned, parseDigitRun_append_cons hdI (by decide),
    parseUnsignedInt, parseFrac_point,
    parseDigitRun_append_cons hdF (by decide),
    parseUnsignedFrac, isEmpty_false_of_ne_nil hne]
  rcases hes with ⟨rfl, rfl⟩ | ⟨rfl, rfl⟩ <;>
  · rw [List.cons_append]
    simp only [Bool.false_and, Bool.false_eq_true, if_false, parseExpTail]
    rw [if_pos (Or.inr trivial)]
    first
    | rw [parseSign_plus]
    | rw [parseSign_dash]
    rw [parseExpSigned, List.nil_append, parseDigitRun_all hdED,
      parseExpDigits, isEmpty_false_of_ne_nil hED]
    simp

theorem sign_mul_natAbs (m : Int) :
    (if m < 0 then (-1 : Int) else 1) * (m.natAbs : Int) = m := by
  by_cases h : m < 0
  · rw [if_pos h, neg_one_mul]
    omega
  · rw [if_neg h, one_mul]
    omega

theorem parseDecChars_sign (m : Int) {c : Char} (rs : List Char)
    (hc : isDigitCh c = true) :
    parseDecChars ((if m < 0 then [Char.ofNat 45] else []) ++ c :: rs) =
      (parseUnsigned (c :: rs)).map
        (fun p => ⟨(if m < 0 then (-1 : Int) else 1) * (p.1 : Int), p.2⟩) := by
  by_cases hm : m < 0
  · rw [if_pos hm, if_pos hm, List.cons_append, List.nil_append,
      parseDecChars, parseSign_dash]
  · rw [if_neg hm, if_neg hm, List.nil_append, parseDecChars,
      parseSign_digit _ hc]

theorem parseUnsigned_point_cons {c : Char} {F : List Char}
    (hc : isDigitCh c = true) (hdF : ∀ x ∈ F, isDigitCh x = true) :
    parseUnsigned (c :: Char.ofNat 46 :: F) =
      some (digitsVal (c :: F), -(F.length : Int)) := by
  have h := parseUnsigned_point (I := [c]) (List.cons_ne_nil _ _)
    (fun x hx => by
      rw [List.mem_singleton] at hx
      subst hx
      exact hc) hdF
  simpa using h

theorem parseUnsigned_sci_nopoint_cons {c : Char} {ED es : List Char}
    {esgn : Int} (hc : isDigitCh c = true) (hED : ED ≠ [])
    (hdED : ∀ x ∈ ED, isDigitCh x = true)
    (hes : (es = [Char.ofNat 43] ∧ esgn = 1) ∨
      (es = [Char.ofNat 45] ∧ esgn = -1)) :
    parseUnsigned (c :: Char.ofNat 69 :: (es ++ ED)) =
      some (digitsVal [c], esgn * (digitsVal ED : Int)) := by
  have h := parseUnsigned_sci_nopoint (I := [c]) (List.cons_ne_nil _ _)
    (fun x hx => by
      rw [List.mem_singleton] at hx
      subst hx
      exact hc) hED hdED hes
  simpa using h

theorem parseUnsigned_sci_point_cons {c : Char} {F ED es : List Char}
    {esgn : Int} (hc : isDigitCh c = true)
    (hdF : ∀ x ∈ F, isDigitCh x = true) (hED : ED ≠ [])
    (hdED : ∀ x ∈ ED, isDigitCh x = true)
    (hes : (es = [Char.ofNat 43] ∧ esgn = 1) ∨
      (es = [Char.ofNat 45] ∧ esgn = -1)) :
    parseUnsigned (c :: Char.ofNat 46 ::
        (F ++ Char.ofNat 69 :: (es ++ ED))) =
      some (digitsVal (c :: F),
        esgn * (digitsVal ED : Int) - (F.length : Int)) := by
  have h := parseUnsigned_sci_point (I := [c]) (List.cons_ne_nil _ _)
    (fun x hx => by
      rw [List.mem_singleton] at hx
      subst hx
      exact hc) hdF hED hdED hes
  simpa using h

theorem parse_toSciChars (d : Dec) : parseDecChars d.toSciChars = some d := by
  obtain ⟨m, e⟩ := d
  have hne := natDigitChars_ne_nil m.natAbs
  have hdig : ∀ c ∈ natDigitChars m.natAbs, isDigitCh c = true :=
    fun c hc => mem_natDigitChars hc
  have hval := digitsVal_natDigitChars m.natAbs
  have hlen : 0 < (natDigitChars m.natAbs).length := List.length_pos.mpr hne
  simp only [Dec.toSciChars]
  by_cases h1 : e ≤ 0 ∧
      -6 ≤ e + ((natDigitChars m.natAbs).length : Int) - 1
  · rw [if_pos h1]
    by_cases h2 : e = 0
    · rw [if_pos h2]
      obtain ⟨c0, tl, hcons⟩ := List.exists_cons_of_ne_nil hne
      have hd0 : isDigitCh c0 = true := hdig c0 (by
        rw [hcons]
        exact List.mem_cons_self _ _)
      rw [hcons, parseDecChars_sign m tl hd0, ← hcons,
        parseUnsigned_digits hne hdig, Option.map_some', hval,
        sign_mul_natAbs, h2]
    · rw [if_neg h2]
      by_cases h3 : -e < ((natDigitChars m.natAbs).length : Int)
      · rw [if_pos h3]
        have hkk : (((((natDigitChars m.natAbs).length : Int) + e).toNat :
            Nat) : Int) = ((natDigitChars m.natAbs).length : Int) + e := by
          omega
        have htne : (natDigitChars m.natAbs).take
            ((((natDigitChars m.natAbs).length : Int) + e).toNat) ≠ [] := by
          intro hnil
          have := congrArg List.length hnil
          rw [List.length_take] at this
          simp only [List.length_nil] at this
          omega
        obtain ⟨c0, t0, hc0⟩ := List.exists_cons_of_ne_nil htne
        have hd0 : isDigitCh c0 = true := hdig c0 (List.take_subset _ _ (by
          rw [hc0]
          exact List.mem_cons_self _ _))
        rw [hc0]
        simp only [List.append_assoc, List.cons_append]
        rw [parseDecChars_sign m _ hd0,
          ← List.cons_append, ← hc0,
          parseUnsigned_point htne
            (fun x hx => hdig x (List.take_subset _ _ hx))
            (fun x hx => hdig x (List.drop_subset _ _ hx)),
          List.take_append_drop, Option.map_some', hval, sign_mul_natAbs,
          List.length_drop]
        refine congrArg some (congrArg (Dec.mk m) ?_)
        omega
      · rw [if_neg h3]
        rw [parseDecChars_sign m _
          (by decide : isDigitCh (Char.ofNat 48) = true)]
        have hdF : ∀ x ∈ List.replicate ((-e -
            ((natDigitChars m.natAbs).length : Int)).toNat)
            (Char.ofNat 48) ++ natDigitChars m.natAbs,
            isDigitCh x = true := by
          intro x hx
          rcases List.mem_append.mp hx with hx | hx
          · rw [List.eq_of_mem_replicate hx]
            decide
          · exact hdig x hx
        rw [parseUnsigned_point_cons (by decide) hdF, Option.map_some']
        have hcoeff : digitsVal (Char.ofNat 48 ::
            (List.replicate ((-e -
              ((natDigitChars m.natAbs).length : Int)).toNat)
              (Char.ofNat 48) ++ natDigitChars m.natAbs)) = m.natAbs := by
          have hz : (Char.ofNat 48 ::
              (List.replicate ((-e -
                ((natDigitChars m.natAbs).length : Int)).toNat)
                (Char.ofNat 48) ++ natDigitChars m.natAbs)) =
              List.replicate (((-e -
                ((natDigitChars m.natAbs).length : Int)).toNat) + 1)
                (Char.ofNat 48) ++ natDigitChars m.natAbs := by
            rw [List.replicate_succ, List.cons_append]
          rw [hz, digitsVal_append, digitsVal_replicate_zero, hval]
          ring
        rw [hcoeff, sign_mul_natAbs, List.length_append,
          List.length_replicate]
        refine congrArg some (congrArg (Dec.mk m) ?_)
        omega
  · rw [if_neg h1]
    obtain ⟨c0, tl, hcons⟩ := List.exists_cons_of_ne_nil hne
    have hd0 : isDigitCh c0 = true := hdig c0 (by
      rw [hcons]
      exact List.mem_cons_self _ _)
    have hdtl : ∀ x ∈ tl, isDigitCh x = true := fun x hx => hdig x (by
      rw [hcons]
      exact List.mem_cons_of_mem _ hx)
    have hEDne := natDigitChars_ne_nil
      (e + ((natDigitChars m.natAbs).length : Int) - 1).natAbs
    have hEDdig : ∀ c ∈ natDigitChars
        (e + ((natDigitChars m.natAbs).length : Int) - 1).natAbs,
        isDigitCh c = true := fun c hc => mem_natDigitChars hc
    have hEDval := digitsVal_natDigitChars
      (e + ((natDigitChars m.natAbs).length : Int) - 1).natAbs
    rw [hcons] at hval hEDne hEDdig hEDval
    rw [hcons]
    simp only [List.isEmpty_cons]
    rw [parseDecChars_sign m _ hd0]
    by_cases htl : tl = []
    · subst htl
      simp only [List.isEmpty_nil, if_true, List.nil_append]
      by_cases ha : e + (([c0] : List Char).length : Int) - 1 < 0
      · rw [if_pos ha,
          parseUnsigned_sci_nopoint_cons hd0 hEDne hEDdig
            (Or.inr ⟨rfl, rfl⟩),
          Option.map_some']
        have hc0val : digitsVal [c0] = m.natAbs := hval
        rw [hc0val, sign_mul_natAbs, hEDval, neg_one_mul]
        refine congrArg some (congrArg (Dec.mk m) ?_)
        simp only [List.length_cons, List.length_nil] at ha ⊢
        omega
      · rw [if_neg ha,
          parseUnsigned_sci_nopoint_cons hd0 hEDne hEDdig
            (Or.inl ⟨rfl, rfl⟩),
          Option.map_some']
        have hc0val : digitsVal [c0] = m.natAbs := hval
        rw [hc0val, sign_mul_natAbs, hEDval, one_mul]
        refine congrArg some (congrArg (Dec.mk m) ?_)
        simp only [List.length_cons, List.length_nil] at ha ⊢
        omega
    · have htlE : tl.isEmpty = false := isEmpty_false_of_ne_nil htl
      simp only [htlE, Bool.false_eq_true, if_false, List.cons_append]
      by_cases ha : e + (((c0 :: tl) : List Char).length : Int) - 1 < 0
      · rw [if_pos ha,
          parseUnsigned_sci_point_cons hd0 hdtl hEDne hEDdig
            (Or.inr ⟨rfl, rfl⟩),
          Option.map_some', hval, sign_mul_natAbs, hEDval, neg_one_mul]
        refine congrArg some (congrArg (Dec.mk m) ?_)
        simp only [List.length_cons] at ha ⊢
        omega
      · rw [if_neg ha,
          parseUnsigned_sci_point_cons hd0 hdtl hEDne hEDdig
            (Or.inl ⟨rfl, rfl⟩),
          Option.map_some', hval, sign_mul_natAbs, hEDval, one_mul]
        refine congrArg some (congrArg (Dec.mk m) ?_)
        simp only [List.length_cons] at ha ⊢
        omega

theorem parse_toSciString (d : Dec) :
    parseDecimal d.toSciString = some d :=
  parse_toSciChars d

/-- C7: `set_dependency_usage` issues a single-field partial update whose
value is the exact decimal text form `str(dependency_usage)`, and for every
finite `Decimal` value that stored text parses back (via the `decimal`
numeric-string grammar) to the identical decimal value — no floating-point
rounding is involved. -/
theorem dependency_usage_exact_roundtrip (job_id : String) (u : Dec) :
    ElasticJobRegistry.set_dependency_usage job_id u =
      ElasticJobRegistry._update job_id
        (.obj [("dependency_usage", .str u.toSciString)]) ∧
    parseDecimal u.toSciString = some u :=
  ⟨rfl, parse_toSciString u⟩
